import Mathlib

/-!
Verification of the concurrent acquisition-and-extraction pipeline of
`src/agents/crawler_agent.py` (class `CrawlerAgent`).

The Python code is shallowly embedded: the pure content-extraction logic
(the JavaScript passed to `page.evaluate`) becomes pure Lean functions over
an abstract page state; the stateful / fallible parts (search HTTP call,
browser rendering, per-task supervision, coordinator) become total Lean
functions over explicit outcome data types, with Python exceptions modelled
by `Except` / explicit outcome constructors.
-/

set_option maxRecDepth 20000

/- ### Basic string machinery (JavaScript / Python semantics) -/

/-- Test whether `need` occurs at the start of `hay` (list-of-chars level). -/
def leadsWith : List Char → List Char → Bool
  | [], _ => true
  | _ :: _, [] => false
  | a :: as, b :: bs => a = b && leadsWith as bs

/-- JavaScript `hay.includes(need)`: `need` occurs contiguously in `hay`. -/
def strIncludesL (need : List Char) : List Char → Bool
  | [] => leadsWith need []
  | c :: t => leadsWith need (c :: t) || strIncludesL need t

/-- String-level JavaScript `hay.includes(need)`. -/
def strIncludes (hay need : String) : Bool :=
  strIncludesL need.toList hay.toList

/-- The character class of the JavaScript regular expression `\s`
(whitespace, including non-breaking space and BOM). -/
def isJsWs (c : Char) : Bool :=
  c = ' ' || c = '\t' || c = '\n' || c = '\r' || c = '\u000b' || c = '\u000c' ||
  c = '\u00a0' || c = '\u1680' || (0x2000 ≤ c.toNat && c.toNat ≤ 0x200a) ||
  c = '\u2028' || c = '\u2029' || c = '\u202f' || c = '\u205f' || c = '\u3000' ||
  c = '\ufeff'

/-- Replace every maximal nonempty run of characters satisfying `p` by a
single space; the flag records whether the previous character was in a run.
Models the JavaScript `.replace(/X+/g, ' ')` idiom. -/
def collapseRunsAux (p : Char → Bool) : Bool → List Char → List Char
  | _, [] => []
  | inRun, c :: t =>
    if p c then
      if inRun then collapseRunsAux p true t
      else ' ' :: collapseRunsAux p true t
    else c :: collapseRunsAux p false t

/-- String-level run collapsing (`.replace(/X+/g, ' ')`). -/
def collapseRuns (p : Char → Bool) (s : String) : String :=
  ⟨collapseRunsAux p false s.toList⟩

/-- Global single-character substitution (`.replace(/x/g, ' ')`). -/
def replaceCharWith (a b : Char) (s : String) : String :=
  ⟨s.toList.map (fun c => if c = a then b else c)⟩

/-- Global single-character deletion (`.replace(/x/g, '')`). -/
def removeChar (a : Char) (s : String) : String :=
  ⟨s.toList.filter (fun c => !(c = a))⟩

/-- JavaScript `String.prototype.trim`: strip `\s` characters at both ends. -/
def jsTrim (s : String) : String :=
  ⟨((s.toList.dropWhile isJsWs).reverse.dropWhile isJsWs).reverse⟩

/-- The `cleanText` helper of the injected JavaScript
(crawler_agent.py lines 165-174), step for step:
`\s+`→single space, `[\r\n]+`→single space, `\t`→space, ` `→space,
`​` removed, `\s+`→single space, trim. -/
def cleanText (s : String) : String :=
  let s1 := collapseRuns isJsWs s
  let s2 := collapseRuns (fun c => c = '\r' || c = '\n') s1
  let s3 := replaceCharWith '\t' ' ' s2
  let s4 := replaceCharWith '\u00a0' ' ' s3
  let s5 := removeChar '\u200b' s4
  let s6 := collapseRuns isJsWs s5
  jsTrim s6

/-- Characters stripped by Python `str.strip()` with no argument. -/
def pyIsSpace (c : Char) : Bool :=
  c = ' ' || c = '\t' || c = '\n' || c = '\r' || c = '\u000b' || c = '\u000c' ||
  c = '\u001c' || c = '\u001d' || c = '\u001e' || c = '\u001f' || c = '\u0085' ||
  c = '\u00a0' || c = '\u1680' || (0x2000 ≤ c.toNat && c.toNat ≤ 0x200a) ||
  c = '\u2028' || c = '\u2029' || c = '\u202f' || c = '\u205f' || c = '\u3000'

/-- Python `s.strip()`. -/
def pyStrip (s : String) : String :=
  ⟨((s.toList.dropWhile pyIsSpace).reverse.dropWhile pyIsSpace).reverse⟩

/-- Lower-case one character, on the ASCII range (every marker the code
scans for is plain ASCII). -/
def asciiLower (c : Char) : Char :=
  if 'A' ≤ c && c ≤ 'Z' then Char.ofNat (c.toNat + 32) else c

/-- JavaScript `s.toLowerCase()`, on the ASCII range. -/
def strLower (s : String) : String :=
  ⟨s.toList.map asciiLower⟩

/- ### The content extractor (the JavaScript of `page.evaluate`,
crawler_agent.py lines 163-263) -/

/-- The `captchaIndicators` list (lines 177-186). -/
def captchaIndicators : List String :=
  ["captcha", "robot check", "bot detection", "verify you are human",
   "security check", "cloudflare", "ddos protection",
   "please prove you are human"]

/-- The sentinel returned on challenge detection (line 190). -/
def captchaSentinel : String :=
  "[CAPTCHA_DETECTED] This page requires human verification."

/-- The `mainSelectors` list (lines 216-231). -/
def mainSelectors : List String :=
  ["article", "main", "[role=\x22main\x22]", ".article-content", ".post-content",
   ".entry-content", ".main-content", "#main-content", ".content", "#content",
   ".blog-post", ".article-body", ".post-body", ".page-content"]

/-- Abstract state of the rendered page as seen by the injected JavaScript.
`rawBodyText` is `document.body.innerText` before noise removal (used only
by the challenge check, which runs first); the remaining fields describe the
DOM after the noise-removal pass (lines 194-213): `queryFirst sel` is the
`innerText` of `document.querySelector(sel)` (none when no match),
`paragraphTexts` the `innerText` of each `<p>` in document order, and
`postBodyText` is `document.body.innerText` after removal. -/
structure PageState where
  rawBodyText : String
  queryFirst : String → Option String
  paragraphTexts : List String
  postBodyText : String

/-- The primary-container loop (lines 233-241): for each selector in order,
if an element matches and its cleaned text has length > 100, return it. -/
def firstMainContent (pg : PageState) : List String → Option String
  | [] => none
  | sel :: rest =>
    match pg.queryFirst sel with
    | some el =>
      let text := cleanText el
      if text.length > 100 then some text else firstMainContent pg rest
    | none => firstMainContent pg rest

/-- JavaScript `text.split(' ')` at the list-of-chars level: cut at every
space, keeping empty pieces (so the empty string yields one piece). -/
def jsSplitSpaceAux : List Char → List Char → List String
  | [], acc => [⟨acc.reverse⟩]
  | c :: t, acc =>
    if c = ' ' then ⟨acc.reverse⟩ :: jsSplitSpaceAux t []
    else jsSplitSpaceAux t (c :: acc)

/-- JavaScript `text.split(' ')`. -/
def jsSplitSpace (text : String) : List String :=
  jsSplitSpaceAux text.toList []

/-- JavaScript `text.split(' ').length` (line 247). -/
def jsWordCount (text : String) : Nat :=
  (jsSplitSpace text).length

/-- Strings whose presence (lower-cased) disqualifies a paragraph
(lines 249-251). -/
def cookieWord : String := "cookie"

def subscribeWord : String := "subscribe"

def newsletterWord : String := "newsletter"

/-- The first paragraph filter (lines 245-252), as a predicate on the
cleaned paragraph text: more than 10 words and no cookie / subscribe /
newsletter mention. -/
def paraKeep (text : String) : Bool :=
  decide (jsWordCount text > 10) &&
  !(strIncludes (strLower text) cookieWord) &&
  !(strIncludes (strLower text) subscribeWord) &&
  !(strIncludes (strLower text) newsletterWord)

/-- The second paragraph filter (line 254), on the cleaned text. -/
def paraLong (text : String) : Bool :=
  decide (text.length > 50)

/-- The paragraph pipeline (lines 244-254): filter by cleaned word count and
banned words, map to cleaned text, filter by cleaned length. -/
def paragraphPipeline (pg : PageState) : List String :=
  ((pg.paragraphTexts.filter (fun p => paraKeep (cleanText p))).map
    (fun p => cleanText p)).filter paraLong

/-- `sep.join(pieces)` of Python / `pieces.join(sep)` of JavaScript: the
pieces concatenated with `sep` between consecutive pieces. -/
def joinWith (sep : String) : List String → String
  | [] => ""
  | [x] => x
  | x :: y :: rest => x ++ sep ++ joinWith sep (y :: rest)

/-- The blank-line separator of `paragraphs.join('\n\n')` (line 257). -/
def blankLine : String := "\n\n"

/-- Sentinel of the final fallback (line 262). -/
def noMeaningfulContent : String := "No meaningful content found"

/-- The full extractor: the return value of the `page.evaluate` JavaScript
(lines 163-263). Challenge check on the lower-cased pre-removal body text
first; then the primary containers; then the paragraph fallback; then the
full-body fallback. -/
def extractContent (pg : PageState) : String :=
  let pageText := strLower pg.rawBodyText
  if captchaIndicators.any (fun ind => strIncludes pageText ind) then
    captchaSentinel
  else
    match firstMainContent pg mainSelectors with
    | some text => text
    | none =>
      let paragraphs := paragraphPipeline pg
      if paragraphs.length > 0 then
        joinWith blankLine paragraphs
      else
        let bodyText := cleanText pg.postBodyText
        if bodyText.length > 100 then bodyText else noMeaningfulContent

/- ### The search step (`search_urls`, crawler_agent.py lines 35-74) -/

/-- Outcome of the HTTP round trip of `search_urls`, as the code observes
it: an HTTP status plus the optional `items` link list of the decoded JSON
body (`none` when the body has no `items` key), or an exception raised
anywhere inside the `try` (connection error, JSON decode error, ...). -/
inductive SearchResponse where
  | response (status : Nat) (items : Option (List String))
  | raised (e : String)

/-- Python `l[:n]` for an `int` bound `n`: the first `n` elements when
`n ≥ 0`, and all but the last `-n` elements (clamped at nothing) when
`n < 0`. -/
def pySliceTo (l : List α) (n : Int) : List α :=
  if 0 ≤ n then l.take n.toNat else l.take (((l.length : Int) + n).toNat)

/-- `search_urls` (lines 35-74): clamp by `num_results = min(num_results, 3)`,
then on a 200 response with an `items` list return `urls[:num_results]`;
on a 200 response without `items`, on a non-200 status, and on any
exception return `[]`. -/
def searchUrls (numResults : Int) (resp : SearchResponse) : List String :=
  let n := min numResults 3
  match resp with
  | .raised _ => []
  | .response status items =>
    if status = 200 then
      match items with
      | some links => pySliceTo links n
      | none => []
    else []

/- ### The render worker (`render_with_playwright`,
crawler_agent.py lines 76-272) -/

/-- The navigation-failure message (line 152). -/
def navFailedMsg : String := "Navigation failed: Could not load page content"

/-- What happens inside the `try` body of `render_with_playwright` once the
page exists: either `page.goto` raises (caught at line 150), or execution
reaches `page.evaluate` and extracts from the rendered page state, or some
other Playwright call raises (caught at line 267). -/
inductive TryEvent where
  | navFailed
  | evaluated (pg : PageState)
  | raised (e : String)

/-- The string value `render_with_playwright` produces for each try-body
event: the fixed navigation-failure message, `content.strip() if content
else ""` (line 265), or `""` from the `except Exception` handler
(line 269). -/
def renderResult : TryEvent → String
  | .navFailed => navFailedMsg
  | .evaluated pg =>
    let content := extractContent pg
    if content = "" then "" else pyStrip content
  | .raised _ => ""

/-- What the try body of `render_with_playwright` does from the outside:
it runs to one of the `TryEvent`s, or the outer deadline's CancelledError
passes through it (a BaseException, so no `except Exception` catches it). -/
inductive BodyEvent where
  | runs (ev : TryEvent)
  | cancelled

/-- One full execution of `render_with_playwright` for the resource
analysis: whether `p.chromium.launch` (line 83), `browser.new_context`
(line 102) and `context.new_page` (line 124) each succeed, and what the
try body then does. -/
structure RenderExec where
  launchOk : Bool
  contextOk : Bool
  pageOk : Bool
  body : BodyEvent

/-- Which of the two explicit close calls of the `finally` block
(lines 270-272) have run when the function is exited. -/
structure CloseState where
  contextClosed : Bool
  browserClosed : Bool
deriving DecidableEq

/-- Step through `render_with_playwright` (lines 76-272) recording the
close state at exit and the returned value (`none` when the function exits
by exception or cancellation instead of returning). The `try`/`finally`
begins only at line 126, after the page exists: a failure in `launch`,
`new_context` or `new_page` propagates without reaching the `finally`, so
neither `context.close()` nor `browser.close()` is called on those paths.
When the `finally` is reached it closes context then browser on every exit
of the body, return, exception and cancellation alike (the close calls
themselves are modelled as succeeding). -/
def renderExec (e : RenderExec) : CloseState × Option String :=
  if !e.launchOk then (⟨false, false⟩, none)
  else if !e.contextOk then (⟨false, false⟩, none)
  else if !e.pageOk then (⟨false, false⟩, none)
  else
    match e.body with
    | .runs ev => (⟨true, true⟩, some (renderResult ev))
    | .cancelled => (⟨true, true⟩, none)

/- ### The task supervisor (`process_url`,
crawler_agent.py lines 284-303) -/

/-- Python exceptions reaching `process_url`'s handlers: the
`asyncio.TimeoutError` of the 20 s deadline (line 287), or any other
exception. -/
inductive PyErr where
  | timeoutError
  | exception (msg : String)
deriving DecidableEq

/-- What one `process_url` task experiences: its 20 s deadline expires, or
some exception escapes to its `try`, or `render_with_playwright` returns
with a try-body event. -/
inductive TaskOutcome where
  | timedOut
  | raised (e : String)
  | rendered (ev : TryEvent)

/-- Python `hay.startswith(need)`. -/
def strStarts (hay need : String) : Bool :=
  leadsWith need.toList hay.toList

/-- Marker tested by `content.startswith('[CAPTCHA_DETECTED]')` (line 292). -/
def captchaMark : String := "[CAPTCHA_DETECTED]"

/-- Marker tested by `content.startswith('Navigation failed:')` (line 294). -/
def navFailedMark : String := "Navigation failed:"

/-- The classification of `process_url` (lines 291-303): a truthy content
that starts with neither marker is returned; everything else falls through
to `return None`. -/
def classifyContent (content : String) : Option String :=
  if content = "" then none
  else if strStarts content captchaMark then none
  else if strStarts content navFailedMark then none
  else some content

/-- The `try` body of `process_url`: raises on timeout or stray exception,
otherwise classifies the rendered content. -/
def processUrlBody : TaskOutcome → Except PyErr (Option String)
  | .timedOut => .error .timeoutError
  | .raised e => .error (.exception e)
  | .rendered ev => .ok (classifyContent (renderResult ev))

/-- `process_url` (lines 284-303): the body wrapped in the two handlers,
`except asyncio.TimeoutError` and `except Exception`, both of which fall
through to `return None`. -/
def processUrl (o : TaskOutcome) : Except PyErr (Option String) :=
  match processUrlBody o with
  | .ok v => .ok v
  | .error .timeoutError => .ok none
  | .error (.exception _) => .ok none

/- ### The pipeline coordinator (`process_query`,
crawler_agent.py lines 274-323) -/

/-- Python `str(e)` for the exceptions of the model (a bare
`asyncio.TimeoutError` stringifies to the empty string). -/
def pyErrStr : PyErr → String
  | .timeoutError => ""
  | .exception m => m

/-- Sentinel for an empty search result (line 281). -/
def noUrlsMsg : String := "No URLs found for the query."

/-- Sentinel for zero successful extractions (line 311). -/
def noContentMsg : String := "No content could be extracted from URLs."

/-- The coordinator's error message head (line 321). -/
def errorMark : String := "Error during processing: "

/-- The join separator of line 316, exactly as written in the source: the
braces are literal characters, `str.join` performs no formatting on its
separator. -/
def sourceSep : String := "\n\n=== Source \x7b0\x7d/\x7b1\x7d ===\n\n"

/-- The Python truthiness filter `[r for r in results if r]` (line 308):
drop `None` and drop the empty string. -/
def pyTruthyStrings (results : List (Option String)) : List String :=
  results.filterMap (fun r =>
    match r with
    | some s => if s = "" then none else some s
    | none => none)

/-- The f-string `f"{i+1}/{len(urls)}: {content}"` of line 317. -/
def sourceTag (i total : Nat) (content : String) : String :=
  toString (i + 1) ++ "/" ++ toString total ++ ": " ++ content

/-- What `process_query` produced: the returned report string and how many
per-URL render tasks were created (line 306). -/
structure QueryRun where
  report : String
  tasksLaunched : Nat
deriving DecidableEq

/-- `asyncio.gather(*tasks)` (line 307): collect every task's value in task
order; an exception in any task would propagate (with `process_url` none
ever does, which is proved below). -/
def gatherResults : List TaskOutcome → Except PyErr (List (Option String))
  | [] => .ok []
  | o :: rest =>
    match processUrl o, gatherResults rest with
    | .ok v, .ok vs => .ok (v :: vs)
    | .error e, _ => .error e
    | .ok _, .error e => .error e

/-- The `try` body of `process_query` (lines 276-318): search, empty-URL
check, fan-out, truthiness filter, empty-content check, tagged join.
`search` is the outcome of `await self.search_urls(query)` (a URL list, or
an exception propagating out of the search step); `outcomes` holds what
each of the per-URL tasks experiences, in URL order. -/
def processQueryTry (search : Except PyErr (List String))
    (outcomes : List TaskOutcome) : Except PyErr QueryRun :=
  match search with
  | .error e => .error e
  | .ok urls =>
    if urls.isEmpty then .ok ⟨noUrlsMsg, 0⟩
    else
      match gatherResults outcomes with
      | .error e => .error e
      | .ok results =>
        let contents := pyTruthyStrings results
        if contents.isEmpty then .ok ⟨noContentMsg, urls.length⟩
        else
          .ok ⟨joinWith sourceSep
              ((contents.enum).map (fun ic => sourceTag ic.1 urls.length ic.2)),
            urls.length⟩

/-- `process_query` (lines 274-323): the body wrapped in the top-level
`except Exception` handler, which returns
`f"Error during processing: {str(e)}"`. -/
def processQueryRun (search : Except PyErr (List String))
    (outcomes : List TaskOutcome) : QueryRun :=
  match processQueryTry search outcomes with
  | .ok r => r
  | .error e => ⟨errorMark ++ pyErrStr e, 0⟩

/- ### Derived views of the code and specification-side definitions -/

/-- The value `process_url` delivers to `asyncio.gather` (that `processUrl`
never errors is proved below). -/
def processUrlVal (o : TaskOutcome) : Option String :=
  match processUrl o with
  | .ok v => v
  | .error _ => none

/-- The failure modes claims C3 and C4 enumerate for one task: deadline
expiry, an exception, and a render result that is empty, challenge-blocked
or a navigation failure. -/
def isFailedOutcome (o : TaskOutcome) : Bool :=
  match o with
  | .timedOut => true
  | .raised _ => true
  | .rendered ev =>
    decide (renderResult ev = "") || strStarts (renderResult ev) captchaMark ||
      strStarts (renderResult ev) navFailedMark

/-- The successful contents of a run, in original task order. -/
def successContents (outcomes : List TaskOutcome) : List String :=
  pyTruthyStrings (outcomes.map processUrlVal)

/-- Tagged join with a running success counter: the shape the aggregated
report of `process_query` is proved to have (tags carry the position among
the successes, the separator is the fixed literal string `sourceSep`). -/
def joinTagged (total : Nat) : Nat → List String → String
  | _, [] => ""
  | k, [c] => sourceTag k total c
  | k, c :: d :: rest =>
    sourceTag k total c ++ sourceSep ++ joinTagged total (k + 1) (d :: rest)

/-- The tagging property claim C1 asserts, written from the spec's words
for comparison with the code: every task that succeeds with content `s` at
original 0-based position `i` among the `N` URLs appears in the report
tagged with its original `(i+1)/N`. -/
def claimC1TagPresent (urls : List String) (outcomes : List TaskOutcome) : Prop :=
  ∀ i o s, outcomes.get? i = some o → processUrl o = Except.ok (some s) →
    s ≠ "" →
    strIncludes (processQueryRun (Except.ok urls) outcomes).report
      (sourceTag i urls.length s) = true

/-- The layered fallback exactly as §4.4 of the spec words rules 3-5,
written independently of `extractContent` for the refinement comparison:
first container among the probed selectors whose cleaned text exceeds 100
characters; else the surviving cleaned paragraphs joined by a blank line;
else the cleaned body text when over 100 characters, else the sentinel. -/
def specLayeredExtract (pg : PageState) : String :=
  let containerTexts :=
    mainSelectors.filterMap (fun sel => (pg.queryFirst sel).map cleanText)
  match containerTexts.find? (fun t => decide (t.length > 100)) with
  | some t => t
  | none =>
    let surviving := (pg.paragraphTexts.map (fun p => cleanText p)).filter
      (fun t => paraKeep t && paraLong t)
    if surviving.isEmpty then
      let body := cleanText pg.postBodyText
      if body.length > 100 then body else noMeaningfulContent
    else joinWith blankLine surviving

/- ### Concrete fixtures for witnesses and counterexamples -/

/-- The first probed selector. -/
def articleSel : String := "article"

/-- A clean article text of more than 100 characters. -/
def cLongArticle : String :=
  "the quick brown fox jumps over the lazy dog and keeps running through the quiet green field until the evening comes"

/-- Visible page text carrying a challenge marker. -/
def cCaptchaBody : String := "Please complete the CAPTCHA to continue"

/-- A page that shows a challenge marker and also has a qualifying
`<article>` container. -/
def cCaptchaPage : PageState :=
  ⟨cCaptchaBody, fun s => if s = articleSel then some cLongArticle else none,
    [], ""⟩

/-- A page with no content at all. -/
def emptyPage : PageState := ⟨"", fun _ => none, [], ""⟩

/-- A long plain body text (more than 100 characters, no markers). -/
def goodBodyA : String :=
  "over the hills and far away the river bends gently through the valley while tall grass sways under a warm afternoon sun"

/-- Another long plain body text, distinct from `goodBodyA`. -/
def goodBodyB : String :=
  "beneath the old stone bridge the water turns slowly around mossy rocks while swallows trace wide circles in the fading light"

/-- A page whose extraction succeeds through the full-body fallback with
`goodBodyA`. -/
def goodPageA : PageState := ⟨"", fun _ => none, [], goodBodyA⟩

/-- A page whose extraction succeeds through the full-body fallback with
`goodBodyB`. -/
def goodPageB : PageState := ⟨"", fun _ => none, [], goodBodyB⟩

/-- Three URLs for the aggregation scenarios. -/
def cUrls3 : List String := ["u1", "u2", "u3"]

/-- Task outcomes for the aggregation scenarios: the first task times out,
the other two succeed. -/
def cOutcomes3 : List TaskOutcome :=
  [.timedOut, .rendered (.evaluated goodPageA), .rendered (.evaluated goodPageB)]

example : cleanText ("  hello \t\n  world\u00a0 ") = "hello world" := by decide
example : strIncludes ("please solve the captcha now") ("captcha") = true := by decide
example : strIncludes ("plain page") ("captcha") = false := by decide
example : jsWordCount ("") = 1 := by decide
example : jsWordCount ("a b c") = 3 := by decide
example : processUrl .timedOut = .ok none := by rfl
example : processUrl (.rendered .navFailed) = .ok none := by rfl
example : sourceTag 0 2 ("x") = "1/2: x" := by rfl
example : processQueryRun (.ok []) [] = ⟨noUrlsMsg, 0⟩ := by rfl
example :
    processQueryRun (.ok ["u1"]) [.timedOut] = ⟨noContentMsg, 1⟩ := by rfl
example :
    processQueryRun (.ok ["u1", "u2"]) [.timedOut, .rendered (.raised ("x"))] =
      ⟨noContentMsg, 2⟩ := by rfl
example : (cleanText cLongArticle).length > 100 := by decide
example : extractContent goodPageA = goodBodyA := by decide
example :
    processUrl (.rendered (.evaluated goodPageB)) = .ok (some goodBodyB) := by
  rfl
example :
    (processQueryRun (.ok cUrls3) cOutcomes3).report =
      "1/3: " ++ goodBodyA ++ sourceSep ++ "2/3: " ++ goodBodyB := by decide

/- ### Helper lemmas -/

/-- `process_url` never raises: it resolves to the value `processUrlVal`. -/
theorem processUrl_ok (o : TaskOutcome) : processUrl o = .ok (processUrlVal o) := by
  cases o <;> rfl

/-- `asyncio.gather` over `process_url` tasks collects all values in order
and never observes an exception. -/
theorem gatherResults_ok (outcomes : List TaskOutcome) :
    gatherResults outcomes = .ok (outcomes.map processUrlVal) := by
  induction outcomes with
  | nil => rfl
  | cons o rest ih => simp [gatherResults, processUrl_ok, ih]

/-- Contents that are empty or start with either marker classify to `none`. -/
theorem classifyContent_none (c : String)
    (h : c = "" ∨ strStarts c captchaMark = true ∨ strStarts c navFailedMark = true) :
    classifyContent c = none := by
  unfold classifyContent
  rcases h with h | h | h
  · simp [h]
  · rcases eq_or_ne c ("") with hc | hc <;> simp [hc, h]
  · rcases eq_or_ne c ("") with hc | hc <;> simp [hc, h]

/-- A failed task outcome supervises to `none`. -/
theorem processUrlVal_none_of_failed (o : TaskOutcome)
    (h : isFailedOutcome o = true) : processUrlVal o = none := by
  cases o with
  | timedOut => rfl
  | raised e => rfl
  | rendered ev =>
    have hc : classifyContent (renderResult ev) = none := by
      apply classifyContent_none
      simp only [isFailedOutcome, Bool.or_eq_true, decide_eq_true_eq] at h
      tauto
    simp [processUrlVal, processUrl, processUrlBody, hc]

/-- When every task fails, no successful contents survive the filter. -/
theorem successContents_nil (outcomes : List TaskOutcome)
    (h : ∀ o ∈ outcomes, isFailedOutcome o = true) :
    successContents outcomes = [] := by
  induction outcomes with
  | nil => rfl
  | cons o rest ih =>
    have ho := processUrlVal_none_of_failed o (h o (by simp))
    have hr := ih (fun o' ho' => h o' (by simp [ho']))
    simp only [successContents, List.map, pyTruthyStrings, List.filterMap] at hr ⊢
    simp [ho, hr]

/-- A list is a lead of itself extended by anything. -/
theorem leadsWith_append (l m : List Char) : leadsWith l (l ++ m) = true := by
  induction l with
  | nil => rfl
  | cons a t ih => simp [leadsWith, ih]

/-- A concatenation starts with its first part. -/
theorem strStarts_append (a b : String) : strStarts (a ++ b) a = true := by
  show leadsWith a.toList (a ++ b).toList = true
  have : (a ++ b).toList = a.toList ++ b.toList := rfl
  rw [this]
  exact leadsWith_append a.toList b.toList

/- ### Claim theorems -/

/-- C2: whenever the lower-cased visible text of the page contains a
challenge marker, the extractor returns the `[CAPTCHA_DETECTED]` sentinel
even when a qualifying `<article>` container with more than 100 characters
of cleaned text is present, and the supervisor classifies the result as
blocked (`none`), never as a success. -/
theorem captcha_priority (pg : PageState) (a : String)
    (hart : pg.queryFirst articleSel = some a)
    (hlong : (cleanText a).length > 100)
    (hmark : captchaIndicators.any
      (fun ind => strIncludes (strLower pg.rawBodyText) ind) = true) :
    extractContent pg = captchaSentinel ∧
    processUrl (.rendered (.evaluated pg)) = .ok none := by
  have h1 : extractContent pg = captchaSentinel := by
    simp [extractContent, hmark]
  refine ⟨h1, ?_⟩
  have h2 : classifyContent (renderResult (.evaluated pg)) = none := by
    simp only [renderResult, h1]
    decide
  simp [processUrl, processUrlBody, h2]

/-- Witness for C2 at a concrete page carrying both the marker and a long
article container. -/
theorem captcha_priority_witness :
    extractContent cCaptchaPage = captchaSentinel ∧
    processUrl (.rendered (.evaluated cCaptchaPage)) = .ok none :=
  captcha_priority cCaptchaPage cLongArticle (by rfl) (by decide) (by decide)

/-- C3: the per-task supervisor always resolves to a value (never raises),
and every enumerated failure mode — deadline expiry, an exception, a
navigation failure, a challenge block, empty content — resolves to `none`. -/
theorem supervisor_total (o : TaskOutcome) :
    (∃ v, processUrl o = Except.ok v) ∧
    (isFailedOutcome o = true → processUrl o = Except.ok none) := by
  refine ⟨⟨processUrlVal o, processUrl_ok o⟩, fun h => ?_⟩
  rw [processUrl_ok o, processUrlVal_none_of_failed o h]

/-- Witness for C3 at the deadline-expiry outcome. -/
theorem supervisor_total_witness :
    processUrl TaskOutcome.timedOut = Except.ok none :=
  (supervisor_total .timedOut).2 (by decide)

/-- C5: a search yielding zero URLs makes the coordinator return the fixed
sentinel and launch zero render tasks, with no exception in the body. -/
theorem no_urls_sentinel (outcomes : List TaskOutcome) :
    processQueryRun (.ok []) outcomes = ⟨noUrlsMsg, 0⟩ ∧
    processQueryTry (.ok []) outcomes = .ok ⟨noUrlsMsg, 0⟩ :=
  ⟨rfl, rfl⟩

/-- C9 as stated is false: an execution that launches the browser but whose
context creation fails exits `render_with_playwright` before the
`try`/`finally` is entered, so neither explicit close call runs. -/
theorem render_teardown_refuted :
    (⟨true, false, true, BodyEvent.cancelled⟩ : RenderExec).launchOk = true ∧
    ¬ ((renderExec ⟨true, false, true, BodyEvent.cancelled⟩).1 =
      ⟨true, true⟩) := by
  constructor
  · rfl
  · intro h
    cases h

/-- C9 amended: when browser launch, context creation and page creation all
succeed, the `finally` block closes both the context and the browser on
every exit path of the rendering body — successful extraction, navigation
failure, any exception, and cancellation by the outer deadline. -/
theorem render_teardown (e : RenderExec) (h1 : e.launchOk = true)
    (h2 : e.contextOk = true) (h3 : e.pageOk = true) :
    (renderExec e).1 = ⟨true, true⟩ := by
  obtain ⟨l, c, p, b⟩ := e
  simp only at h1 h2 h3
  subst h1 h2 h3
  cases b <;> rfl

/-- Witness for C9's amended theorem at a concrete full execution. -/
theorem render_teardown_witness :
    (renderExec ⟨true, true, true, BodyEvent.runs TryEvent.navFailed⟩).1 =
      ⟨true, true⟩ :=
  render_teardown ⟨true, true, true, BodyEvent.runs TryEvent.navFailed⟩ rfl rfl rfl

/-- C10: when no challenge marker fires, no container or paragraph rule
matches and the cleaned body text has at most 100 characters, the extractor
returns the literal `"No meaningful content found"`, and the supervisor
classifies it as a success (`some`), eligible for the report. -/
theorem placeholder_is_success (pg : PageState)
    (hnomark : captchaIndicators.any
      (fun ind => strIncludes (strLower pg.rawBodyText) ind) = false)
    (hnomain : firstMainContent pg mainSelectors = none)
    (hnopara : paragraphPipeline pg = [])
    (hbody : ¬ (cleanText pg.postBodyText).length > 100) :
    extractContent pg = noMeaningfulContent ∧
    processUrl (.rendered (.evaluated pg)) = .ok (some noMeaningfulContent) := by
  have h1 : extractContent pg = noMeaningfulContent := by
    simp [extractContent, hnomark, hnomain, hnopara, hbody]
  refine ⟨h1, ?_⟩
  have h2 : classifyContent (renderResult (.evaluated pg)) =
      some noMeaningfulContent := by
    simp only [renderResult, h1]
    decide
  simp [processUrl, processUrlBody, h2]

/-- Witness for C10 at the empty page. -/
theorem placeholder_is_success_witness :
    extractContent emptyPage = noMeaningfulContent ∧
    processUrl (.rendered (.evaluated emptyPage)) =
      .ok (some noMeaningfulContent) :=
  placeholder_is_success emptyPage (by decide) (by rfl) (by rfl) (by decide)

/-- C4: when the search yields at least one URL and every per-URL task
fails, the coordinator's body completes without exception and the run
returns exactly the fixed sentinel. -/
theorem all_fail_sentinel (urls : List String) (outcomes : List TaskOutcome)
    (hne : urls ≠ []) (hlen : outcomes.length = urls.length)
    (hfail : ∀ o ∈ outcomes, isFailedOutcome o = true) :
    processQueryTry (.ok urls) outcomes = .ok ⟨noContentMsg, urls.length⟩ ∧
    processQueryRun (.ok urls) outcomes = ⟨noContentMsg, urls.length⟩ := by
  have hu : urls.isEmpty = false := by
    cases urls with
    | nil => exact absurd rfl hne
    | cons a l => rfl
  have hc : pyTruthyStrings (outcomes.map processUrlVal) = [] :=
    successContents_nil outcomes hfail
  have ht : processQueryTry (.ok urls) outcomes = .ok ⟨noContentMsg, urls.length⟩ := by
    simp [processQueryTry, hu, gatherResults_ok, hc]
  exact ⟨ht, by simp [processQueryRun, ht]⟩

/-- Witness for C4: one URL whose task times out. -/
theorem all_fail_sentinel_witness :
    processQueryRun (Except.ok ["u1"]) [TaskOutcome.timedOut] =
      ⟨noContentMsg, 1⟩ :=
  (all_fail_sentinel ["u1"] [.timedOut] (by decide) rfl (by decide)).2

/-- C6: the coordinator never lets an exception escape — the only way its
body can raise is the search step raising, and that exception is caught and
surfaced as a report beginning with `"Error during processing: "`. -/
theorem coordinator_catches (search : Except PyErr (List String))
    (outcomes : List TaskOutcome) (e : PyErr)
    (h : processQueryTry search outcomes = .error e) :
    search = .error e ∧
    processQueryRun search outcomes = ⟨errorMark ++ pyErrStr e, 0⟩ ∧
    strStarts (processQueryRun search outcomes).report errorMark = true := by
  have hs : search = .error e := by
    cases search with
    | error e' =>
      simp only [processQueryTry] at h
      cases h
      rfl
    | ok urls =>
      by_cases hu : urls.isEmpty
      · simp [processQueryTry, hu] at h
      · by_cases hc : (pyTruthyStrings (outcomes.map processUrlVal)).isEmpty <;>
          simp [processQueryTry, hu, hc, gatherResults_ok] at h
  subst hs
  refine ⟨rfl, rfl, ?_⟩
  exact strStarts_append errorMark (pyErrStr e)

/-- Witness for C6 at a concrete raising search step. -/
theorem coordinator_catches_witness :
    processQueryRun (Except.error (PyErr.exception ("boom"))) [] =
      ⟨errorMark ++ pyErrStr (PyErr.exception ("boom")), 0⟩ :=
  (coordinator_catches (Except.error (PyErr.exception ("boom"))) []
    (PyErr.exception ("boom")) rfl).2.1

/-- C7 as stated is false: for the requested count `-1`, a well-formed 200
response carrying five items makes `search_urls` return four URLs, because
`min(-1, 3) = -1` and the Python slice `urls[:-1]` drops only the last
element. -/
theorem search_cap_refuted :
    searchUrls (-1) (SearchResponse.response 200 (some ["a", "b", "c", "d", "e"])) =
      ["a", "b", "c", "d"] ∧
    ¬ ((searchUrls (-1)
        (SearchResponse.response 200 (some ["a", "b", "c", "d", "e"]))).length ≤ 3) := by
  decide

/-- C7 amended: for every requested count that is not negative,
`search_urls` returns at most 3 URLs; and on an exception, a non-200
status, or a 200 response without an `items` list it returns `[]` rather
than raising. -/
theorem search_cap (numResults : Int) (resp : SearchResponse)
    (hn : 0 ≤ numResults) :
    (searchUrls numResults resp).length ≤ 3 ∧
    (∀ e, resp = SearchResponse.raised e → searchUrls numResults resp = []) ∧
    (∀ status items, resp = SearchResponse.response status items →
      status ≠ 200 → searchUrls numResults resp = []) ∧
    (∀ status, resp = SearchResponse.response status none →
      searchUrls numResults resp = []) := by
  refine ⟨?_, ?_, ?_, ?_⟩
  · cases resp with
    | raised e => simp [searchUrls]
    | response status items =>
      by_cases hst : status = 200
      · cases items with
        | none => simp [searchUrls, hst]
        | some links =>
          simp only [searchUrls, hst, if_true]
          have h0 : 0 ≤ min numResults 3 := le_min hn (by norm_num)
          have h3 : min numResults 3 ≤ 3 := min_le_right _ _
          simp only [pySliceTo, h0, if_true, List.length_take]
          have : (min numResults 3).toNat ≤ 3 := by omega
          omega
      · simp [searchUrls, hst]
  · intro e he
    subst he
    simp [searchUrls]
  · intro status items he hst
    subst he
    simp [searchUrls, hst]
  · intro status he
    subst he
    by_cases hst : status = 200 <;> simp [searchUrls, hst]

/-- Witness for C7's amended theorem at the default count and a full
response. -/
theorem search_cap_witness :
    (searchUrls 3 (SearchResponse.response 200 (some ["a", "b", "c"]))).length ≤ 3 :=
  (search_cap 3 (SearchResponse.response 200 (some ["a", "b", "c"])) (by decide)).1

/-- The container loop equals probing the cleaned texts of the matched
selectors and taking the first over 100 characters. -/
theorem firstMain_eq_find (pg : PageState) :
    ∀ sels : List String,
      firstMainContent pg sels =
        (sels.filterMap (fun sel => (pg.queryFirst sel).map cleanText)).find?
          (fun t => decide (t.length > 100))
  | [] => rfl
  | sel :: rest => by
    cases hq : pg.queryFirst sel with
    | none =>
      simp [firstMainContent, List.filterMap_cons, hq, firstMain_eq_find pg rest]
    | some el =>
      by_cases hl : (cleanText el).length > 100 <;>
        simp [firstMainContent, List.filterMap_cons, List.find?, hq, hl,
          firstMain_eq_find pg rest]

/-- Filtering before mapping with the cleaned-text predicate equals mapping
first and filtering the conjunction. -/
theorem filter_map_filter_eq (ps : List String) :
    ((ps.filter (fun p => paraKeep (cleanText p))).map (fun p => cleanText p)).filter
        paraLong =
      (ps.map (fun p => cleanText p)).filter (fun t => paraKeep t && paraLong t) := by
  induction ps with
  | nil => rfl
  | cons p rest ih =>
    by_cases hk : paraKeep (cleanText p) <;> by_cases hl : paraLong (cleanText p) <;>
      simp [List.filter_cons, List.map_cons, hk, hl, ih]

/-- The code's paragraph pipeline in the shape the spec words it. -/
theorem paragraphPipeline_eq (pg : PageState) :
    paragraphPipeline pg =
      (pg.paragraphTexts.map (fun p => cleanText p)).filter
        (fun t => paraKeep t && paraLong t) :=
  filter_map_filter_eq pg.paragraphTexts

/-- C8: on every page without challenge markers the extractor agrees with
the spec's layered fallback: first qualifying container, else surviving
paragraphs joined by a blank line, else body text over 100 characters, else
the fixed sentinel. -/
theorem extractor_matches_spec (pg : PageState)
    (hnomark : captchaIndicators.any
      (fun ind => strIncludes (strLower pg.rawBodyText) ind) = false) :
    extractContent pg = specLayeredExtract pg := by
  cases hfind : firstMainContent pg mainSelectors with
  | some t =>
    have hfind' : (mainSelectors.filterMap
        (fun sel => (pg.queryFirst sel).map cleanText)).find?
          (fun t => decide (t.length > 100)) = some t := by
      rw [← firstMain_eq_find pg]
      exact hfind
    simp [extractContent, specLayeredExtract, hnomark, hfind, hfind']
  | none =>
    have hfind' : (mainSelectors.filterMap
        (fun sel => (pg.queryFirst sel).map cleanText)).find?
          (fun t => decide (t.length > 100)) = none := by
      rw [← firstMain_eq_find pg]
      exact hfind
    cases hp : paragraphPipeline pg with
    | nil =>
      have hp' : (pg.paragraphTexts.map (fun p => cleanText p)).filter
          (fun t => paraKeep t && paraLong t) = [] := by
        rw [← paragraphPipeline_eq]
        exact hp
      simp [extractContent, specLayeredExtract, hnomark, hfind, hfind', hp, hp']
    | cons c cs =>
      have hp' : (pg.paragraphTexts.map (fun p => cleanText p)).filter
          (fun t => paraKeep t && paraLong t) = c :: cs := by
        rw [← paragraphPipeline_eq]
        exact hp
      simp [extractContent, specLayeredExtract, hnomark, hfind, hfind', hp, hp']

/-- Witness for C8 at the empty page (full-body fallback tier). -/
theorem extractor_matches_spec_witness :
    extractContent emptyPage = specLayeredExtract emptyPage :=
  extractor_matches_spec emptyPage (by decide)

/-- Joining the enumerated tags equals the counter-passing tagged join. -/
theorem joinWith_enumFrom (total : Nat) :
    ∀ (l : List String) (k : Nat),
      joinWith sourceSep
          ((List.enumFrom k l).map (fun ic => sourceTag ic.1 total ic.2)) =
        joinTagged total k l
  | [], _ => rfl
  | [c], _ => rfl
  | c :: d :: rest, k => by
    have ih := joinWith_enumFrom total (d :: rest) (k + 1)
    simp only [List.enumFrom, List.map] at ih ⊢
    simp [joinWith, joinTagged, ih]

/-- C1 as stated is false: with three URLs where only the tasks at original
positions 1 and 2 succeed, the report tags the second success `2/3`, not
its original rank `3/3`. -/
theorem original_rank_tagging_refuted : ¬ claimC1TagPresent cUrls3 cOutcomes3 := by
  intro h
  have hB : processUrl (TaskOutcome.rendered (TryEvent.evaluated goodPageB)) =
      Except.ok (some goodBodyB) := by rfl
  have hmem : cOutcomes3.get? 2 =
      some (TaskOutcome.rendered (TryEvent.evaluated goodPageB)) := by rfl
  have htag := h 2 (TaskOutcome.rendered (TryEvent.evaluated goodPageB))
    goodBodyB hmem hB (by decide)
  revert htag
  decide

/-- C1 amended: with at least one URL and at least one success, the report
is exactly the successful contents in original task order, each tagged
`(position among successes)/(number of URLs)`, joined with the fixed
literal separator `sourceSep` (whose placeholders are never substituted),
and one render task was launched per URL. -/
theorem report_shape_on_success (urls : List String)
    (outcomes : List TaskOutcome) (hne : urls ≠ [])
    (hs : successContents outcomes ≠ []) :
    processQueryRun (.ok urls) outcomes =
      ⟨joinTagged urls.length 0 (successContents outcomes), urls.length⟩ := by
  have hu : urls.isEmpty = false := by
    cases urls with
    | nil => exact absurd rfl hne
    | cons a l => rfl
  have hc : (pyTruthyStrings (outcomes.map processUrlVal)).isEmpty = false := by
    cases hemp : pyTruthyStrings (outcomes.map processUrlVal) with
    | nil => exact absurd hemp hs
    | cons c cs => rfl
  simp only [processQueryRun, processQueryTry, hu, gatherResults_ok, hc,
    Bool.false_eq_true, if_false]
  have henum : (pyTruthyStrings (outcomes.map processUrlVal)).enum =
      List.enumFrom 0 (successContents outcomes) := rfl
  rw [henum, joinWith_enumFrom]

/-- Witness for C1's amended theorem at the three-URL scenario. -/
theorem report_shape_on_success_witness :
    processQueryRun (Except.ok cUrls3) cOutcomes3 =
      ⟨joinTagged cUrls3.length 0 (successContents cOutcomes3), cUrls3.length⟩ :=
  report_shape_on_success cUrls3 cOutcomes3 (by decide) (by decide)
